import Mathlib

/-!
Verification development for the cypress-console-spy plugin.

The client half (`src/client.js`) wraps suite/test registration, manages
console spies, merges configuration layers, filters issues against a
whitelist and decides pass/fail; the server half (`src/server.js`)
aggregates statistics and exposes task handlers.  Both halves are embedded
below as executable Lean definitions; mutable JS state is made explicit
(the server's `details` array lives in an explicit heap so that reference
aliasing is observable).
-/

namespace ConsoleSpy

/-- Issue classification, `getIssueType` in `client.js`:
`error` for console.error, `warn` for console.warn, `info` otherwise. -/
inductive IssueType where
  | error : IssueType
  | warn : IssueType
  | info : IssueType
deriving DecidableEq, Repr

/-- A console-call argument, as the client code distinguishes them:
a string, an `Error` instance (name, message), a plain object carrying a
non-empty string `message` property (name may be empty), `null`,
`undefined`, or any other value represented by its JS stringification
(`String`/`JSON.stringify` result). -/
inductive JsArg where
  | str : String → JsArg
  | errorInst : String → String → JsArg
  | msgObj : String → String → JsArg
  | nullv : JsArg
  | undef : JsArg
  | other : String → JsArg
deriving DecidableEq, Repr

/-- Function `messageToString` on a single value (`client.js` lines 16-63).
The `Error` branch joins `name:` and the message with a space, falling
back to `String(message)` when both are unusable; the object-with-message
branch prefixes `name: `. -/
def messageToStringV : JsArg → String
  | .str s => s
  | .errorInst name msg =>
      let parts :=
        (if name ≠ "" ∧ name ≠ "Error" then [name ++ ":"] else []) ++
        (if msg ≠ "" then [msg] else [])
      if parts = [] then name else String.intercalate " " parts
  | .msgObj name msg => (if name ≠ "" then name ++ ": " else "") ++ msg
  | .nullv => "null"
  | .undef => "undefined"
  | .other s => s

/-- Function `messageToString` applied to a call's argument array: the array branch
maps each element and joins with a single space. -/
def messageToString (args : List JsArg) : String :=
  String.intercalate " " (args.map messageToStringV)

/-- One step of the `rawMessage`-building loop in `collectSpyCalls`
(`client.js` lines 135-145): `Error`s and message-bearing objects
contribute `name: message `, strings contribute themselves plus a space,
`null`/`undefined` contribute nothing, anything else contributes its
`messageToString` plus a space. -/
def rawOfArg : JsArg → String
  | .errorInst name msg => (if name ≠ "" then name ++ ": " else "") ++ msg ++ " "
  | .str s => s ++ " "
  | .msgObj name msg => (if name ≠ "" then name ++ ": " else "") ++ msg ++ " "
  | .nullv => ""
  | .undef => ""
  | .other s => s ++ " "

/-- An issue as accumulated by the client: type, the original argument
array, and the flattened `rawMessage` used for whitelist matching. -/
structure Issue where
  type : IssueType
  message : List JsArg
  rawMessage : String
deriving DecidableEq, Repr

/-- Function `getIssueType` (`client.js` lines 118-122). -/
def getIssueType (method : String) : IssueType :=
  if method = "error" then .error
  else if method = "warn" then .warn
  else .info

/-- The issue built from one recorded spy call in `collectSpyCalls`
(`client.js` lines 128-152): type from the method, message = the raw
argument array, rawMessage = the per-argument flattening, trimmed. -/
def issueOfCall (method : String) (args : List JsArg) : Issue :=
  { type := getIssueType method
    message := args
    rawMessage := (String.join (args.map rawOfArg)).trim }

/-- Function `collectSpyCalls` mapped over a spy's recorded calls. -/
def collectSpyCalls (method : String) (calls : List (List JsArg)) : List Issue :=
  calls.map (issueOfCall method)

/-- A whitelist entry: a string (matched by substring containment, JS
`message.includes(pattern)`) or a regex, represented by its test
predicate (JS `pattern.test(message)`). -/
inductive WPattern where
  | str : String → WPattern
  | regex : (String → Bool) → WPattern

/-- JS `haystack.includes(needle)`: substring containment. -/
def containsSubstr (haystack needle : String) : Bool :=
  decide (needle.toList <:+: haystack.toList)

/-- One whitelist check from `checkConsoleErrors` (`client.js` lines
248-251): strings by substring containment, regexes by their test. -/
def patternMatches (p : WPattern) (m : String) : Bool :=
  match p with
  | .str s => containsSubstr m s
  | .regex t => t m

/-- The resolved configuration record (`defaultConfig` shape,
`client.js` lines 1-8). -/
structure Config where
  failOnSpy : Bool
  logToFile : Bool
  methodsToTrack : List String
  throwOnWarning : Bool
  whitelist : List WPattern
  debug : Bool

/-- The `defaultConfig` record (`client.js` lines 1-8). -/
def defaultConfig : Config :=
  { failOnSpy := true
    logToFile := true
    methodsToTrack := ["error"]
    throwOnWarning := false
    whitelist := []
    debug := false }

/-- A configuration override object (the value of a `consoleDaemon` key):
any subset of the fields may be present; absent fields fall through. -/
structure PartialConfig where
  failOnSpy : Option Bool := none
  logToFile : Option Bool := none
  methodsToTrack : Option (List String) := none
  throwOnWarning : Option Bool := none
  whitelist : Option (List WPattern) := none
  debug : Option Bool := none

/-- The empty override object `{}`. -/
def emptyPartial : PartialConfig := {}

/-- JS object spread `{...base, ...override}` over the configuration
fields: a field present in the override wins. -/
def applySpread (base : Config) (p : PartialConfig) : Config :=
  { failOnSpy := p.failOnSpy.getD base.failOnSpy
    logToFile := p.logToFile.getD base.logToFile
    methodsToTrack := p.methodsToTrack.getD base.methodsToTrack
    throwOnWarning := p.throwOnWarning.getD base.throwOnWarning
    whitelist := p.whitelist.getD base.whitelist
    debug := p.debug.getD base.debug }

/-- JS `config = { ...defaultConfig, ...customConfig }` (`client.js` line 66):
the global configuration built at client initialization. -/
def mkGlobalConfig (custom : PartialConfig) : Config :=
  applySpread defaultConfig custom

/-- Function `getMergedConfig(testConfig, describeConfigForTest)` (`client.js`
lines 82-115).  `testCfg` and `describeCfg` are the `consoleDaemon`
values of the two options objects (`none` when the key or the object is
absent, matching `?.consoleDaemon || {}`).  Scalar fields are merged by
spread `{...defaultConfig, ...config, ...describeCD, ...testCD}`; the
whitelist is the concatenation of all levels; `debug` uses the
`?? `-coalescing chain. -/
def getMergedConfig (config : Config) (testCfg describeCfg : Option PartialConfig) : Config :=
  let dcd := describeCfg.getD emptyPartial
  let tcd := testCfg.getD emptyPartial
  let mergedWhitelist :=
    config.whitelist ++ (dcd.whitelist.getD []) ++ (tcd.whitelist.getD [])
  let m := applySpread (applySpread config dcd) tcd
  { m with
      whitelist := mergedWhitelist
      debug := tcd.debug.getD (dcd.debug.getD config.debug) }

/-! ### Suite/test registration (`describe` / `it` overrides)

`client.js` lines 325-395: the `describe` override pushes the suite's
options object onto a stack as the suite body starts registering its
children and pops it (restoring the enclosing suite's object, or `{}`)
when the body finishes; the `it` override captures the stack's current
top as `describeConfigForTest` at registration time.  Suites run their
bodies synchronously, so the stack discipline is exactly a structural
recursion over the spec tree with the current suite's options object as
the ambient value.  A suite or test node carries `Option PartialConfig`:
the `consoleDaemon` value of its options object, `none` when no options
object (the code substitutes `{}`) or no `consoleDaemon` key. -/

/-- A registration-time spec tree node: a suite with its `consoleDaemon`
override and children, or a test with its `consoleDaemon` override. -/
inductive SpecItem where
  | suite : Option PartialConfig → List SpecItem → SpecItem
  | test : Option PartialConfig → SpecItem

/-- A test as wrapped at registration: its own override and the
`describeConfigForTest` captured from the stack top. -/
structure RegTest where
  testCfg : Option PartialConfig
  describeCfg : Option PartialConfig

mutual

/-- Registration of one item under the current suite override `cur`
(the stack top; `none` at top level, matching `currentDescribeConfig`
initialized to `{}`). -/
def registerItem (cur : Option PartialConfig) : SpecItem → List RegTest
  | .test tc => [⟨tc, cur⟩]
  | .suite sc children => registerItems sc children

/-- Registration of a suite body's items in order: a nested suite's
children register under its own override, and after it pops, later
siblings register under the restored `cur`. -/
def registerItems (cur : Option PartialConfig) : List SpecItem → List RegTest
  | [] => []
  | item :: rest => registerItem cur item ++ registerItems cur rest

end

/-! ### Issue filtering, reporting and the wrapped-test pipeline -/

/-- The string an issue is matched and displayed by:
`issue.rawMessage || messageToString(issue.message)` (an empty
`rawMessage` is falsy, so it falls back to the flattened message). -/
def issueMatchString (i : Issue) : String :=
  if i.rawMessage ≠ "" then i.rawMessage else messageToString i.message

/-- Whether an issue matches some whitelist entry (`checkConsoleErrors`,
`client.js` lines 242-259). -/
def isWhitelisted (wl : List WPattern) (i : Issue) : Bool :=
  wl.any (fun p => patternMatches p (issueMatchString i))

/-- The `filteredIssues` computation (`client.js` lines 237-260): all `error`-typed
issues, plus the `warn`-typed ones iff `throwOnWarning`, minus the
whitelisted ones. -/
def computeFilteredIssues (merged : Config) (allIssues : List Issue) : List Issue :=
  let errors := allIssues.filter (fun i => i.type = .error)
  let warnings := allIssues.filter (fun i => i.type = .warn)
  (errors ++ (if merged.throwOnWarning then warnings else [])).filter
    (fun i => !(isWhitelisted merged.whitelist i))

/-- An issue as sent across the process boundary: `{type, message}` with
both flattened to strings. -/
structure SIssue where
  type : String
  message : String
deriving DecidableEq, Repr

/-- The `type` field sent to the server for a client issue. -/
def typeName : IssueType → String
  | .error => "error"
  | .warn => "warn"
  | .info => "info"

/-- The payload shape of one `processConsoleBatch` task call. -/
structure Batch where
  issues : List SIssue
  testPath : String
  logToFile : Bool
deriving DecidableEq, Repr

/-- The `{type, message}` record `processIssues` builds for one issue
(`client.js` lines 221-224). -/
def toServerIssue (i : Issue) : SIssue :=
  { type := typeName i.type, message := issueMatchString i }

/-- Function `processIssues` (`client.js` lines 209-228): with no issues it sends
nothing; otherwise it sends exactly one batched task call whose
`logToFile` flag is read from the GLOBAL `config`, not the merged one. -/
def processIssues (config : Config) (testPath : String) (issues : List Issue) : List Batch :=
  if issues.isEmpty then []
  else [{ issues := issues.map toServerIssue, testPath := testPath,
          logToFile := config.logToFile }]

/-- The aggregate failure message built in `checkConsoleErrors`
(`client.js` lines 270-272), bullet prefix reproduced byte-for-byte. -/
def consoleErrorMessage (filtered : List Issue) : String :=
  "Console errors detected (" ++ toString filtered.length ++ "):\n" ++
    String.intercalate "\n" (filtered.map (fun i => "â€¢ " ++ issueMatchString i))

/-- How a wrapped test can settle: with the body's own thrown error, or
with the synthesized `ConsoleErrors` failure. -/
inductive TestError where
  | body : String → TestError
  | consoleErrors : String → TestError
deriving DecidableEq, Repr

/-- An uncaught `error` event's data (`message`, `filename`, `lineno`). -/
structure ErrorEvent where
  message : String
  filename : String
  lineno : Nat
deriving DecidableEq, Repr

/-- The issue the window error handler synthesizes (`client.js` lines
194-203): type `error`, message the singleton formatted string,
`rawMessage` the original event message. -/
def uncaughtErrorIssue (e : ErrorEvent) : Issue :=
  let errorMessage :=
    "Uncaught Error: " ++ e.message ++ " at " ++ e.filename ++ ":" ++ toString e.lineno
  { type := .error, message := [.str errorMessage], rawMessage := e.message }

/-- The client-side mutable state the error handler can touch: the
accumulated issue sequence and the task calls issued so far. -/
structure MonitorState where
  allIssues : List Issue
  reports : List Batch

/-- The window `error`-event handler installed once per window by
`setupConsoleSpy` (`client.js` lines 194-203): it only pushes the
synthesized issue onto `allIssues`; it issues no task call. -/
def windowErrorHandler (st : MonitorState) (e : ErrorEvent) : MonitorState :=
  { st with allIssues := st.allIssues ++ [uncaughtErrorIssue e] }

/-- What one execution of a wrapped test's body does: whether (and with
what message) it throws, the uncaught error events fired during it, and
the calls each console spy has recorded by its end (the `consoleSpies`
table keyed by method name; a method absent from the table has no spy). -/
structure BodyRun where
  thrown : Option String
  errorEvents : List ErrorEvent
  spyCalls : List (String × List (List JsArg))

/-- The spy-drain loop at `EXECUTING→COLLECTING` (`client.js` line 317):
for each method of `config.methodsToTrack`, collect the recorded calls
of its spy, if one exists. -/
def collectAll (methods : List String) (spies : List (String × List (List JsArg))) :
    List Issue :=
  (methods.map (fun m =>
    match spies.find? (fun p => p.1 = m) with
    | some p => collectSpyCalls m p.2
    | none => [])).flatten

/-- The observable outcome of one wrapped-test execution. -/
structure RunResult where
  outcome : Option TestError
  collected : Bool
  reports : List Batch
  cleanedUp : Bool
deriving Repr

/-- Function `wrapTest` (`client.js` lines 304-323) as a function of the body's
behaviour.  The promise chain is
`setup/body .then(collect; check) .then(cleanup)` with fulfillment
handlers only, so a body rejection skips both later steps; a
`ConsoleErrors` throw inside `checkConsoleErrors` skips the final
cleanup step.  `collected` records whether the spy-drain step ran,
`cleanedUp` whether the final `cleanupSpies()` ran before settling. -/
def runWrappedTest (config : Config) (testCfg describeCfg : Option PartialConfig)
    (testPath : String) (body : BodyRun) : RunResult :=
  match body.thrown with
  | some e => { outcome := some (.body e), collected := false, reports := [], cleanedUp := false }
  | none =>
    let allIssues :=
      body.errorEvents.map uncaughtErrorIssue ++
        collectAll config.methodsToTrack body.spyCalls
    let merged := getMergedConfig config testCfg describeCfg
    let filtered := computeFilteredIssues merged allIssues
    let reports := processIssues config testPath filtered
    if 0 < filtered.length ∧ merged.failOnSpy then
      { outcome := some (.consoleErrors (consoleErrorMessage filtered))
        collected := true, reports := reports, cleanedUp := false }
    else
      { outcome := none, collected := true, reports := reports, cleanedUp := true }

/-! ### The aggregator (`src/server.js`)

`errorStats = { errors, warnings, details }` where `details` is a JS
array, i.e. a *reference* to a mutable cell.  To make aliasing
observable, arrays live in an explicit heap (a list of arrays, addressed
by index) and the stats record holds the address of its `details` array.
File logging and console printing are side channels with no bearing on
the claims and are elided. -/

/-- One `{type, message}` record of the `details` sequence. -/
structure SDetail where
  type : String
  message : String
deriving DecidableEq, Repr

/-- The `errorStats` object as the server code sees it: two counters and
a reference (heap address) to the `details` array. -/
structure StatsObj where
  errors : Nat
  warnings : Nat
  detailsRef : Nat
deriving DecidableEq, Repr

/-- The server's state: the array heap and the current `errorStats`. -/
structure ServerState where
  heap : List (List SDetail)
  stats : StatsObj
deriving DecidableEq, Repr

/-- Dereference an array address (out-of-range reads as empty). -/
def readArr : List (List SDetail) → Nat → List SDetail
  | [], _ => []
  | a :: _, 0 => a
  | _ :: rest, n + 1 => readArr rest n

/-- JS `details.push(...items)`: append to the array at the given address. -/
def pushArr : List (List SDetail) → Nat → List SDetail → List (List SDetail)
  | [], _, _ => []
  | a :: rest, 0, items => (a ++ items) :: rest
  | a :: rest, n + 1, items => a :: pushArr rest n items

/-- The state after `errorStats = { errors: 0, warnings: 0, details: [] }`
at server startup (one fresh empty array at address 0). -/
def initServerState : ServerState :=
  { heap := [[]], stats := { errors := 0, warnings := 0, detailsRef := 0 } }

/-- One iteration of the `issues.forEach` loop in `processConsoleBatch`
(`server.js` lines 52-57): `type === 'error'` bumps `errors`, ANY other
type bumps `warnings`; the `{type, message}` record is pushed onto the
`details` array. -/
def applyBatchIssue (s : ServerState) (i : SIssue) : ServerState :=
  { heap := pushArr s.heap s.stats.detailsRef [{ type := i.type, message := i.message }]
    stats :=
      if i.type = "error" then { s.stats with errors := s.stats.errors + 1 }
      else { s.stats with warnings := s.stats.warnings + 1 } }

/-- The `processConsoleBatch` task (`server.js` lines 44-82), statistics
effect only: an empty (or missing) issue list returns immediately with
no mutation; otherwise each issue updates a counter and `details`.
`testPath` and `logToFile` only drive the elided file logging. -/
def processConsoleBatch (s : ServerState) (issues : List SIssue)
    (_testPath : Option String) (_logToFile : Bool) : ServerState :=
  if issues.isEmpty then s else issues.foldl applyBatchIssue s

/-- The legacy `logConsoleError` task (`server.js` lines 85-91): the
message array is joined with spaces, one counter bumps (`error` vs
anything else), one record is pushed. -/
def logConsoleError (s : ServerState) (message : List String) (type : String) :
    ServerState :=
  let messageStr := String.intercalate " " message
  { heap := pushArr s.heap s.stats.detailsRef [{ type := type, message := messageStr }]
    stats :=
      if type = "error" then { s.stats with errors := s.stats.errors + 1 }
      else { s.stats with warnings := s.stats.warnings + 1 } }

/-- The `getErrorStats` task (`server.js` lines 124-126):
`return { ...errorStats }` — a SHALLOW copy: the counters are copied by
value but `detailsRef` still addresses the live `details` array. -/
def getErrorStats (s : ServerState) : StatsObj := s.stats

/-- The `resetErrorStats` task (`server.js` lines 129-132):
`errorStats = { errors: 0, warnings: 0, details: [] }` rebinds
`errorStats` to a fresh object with a freshly allocated empty array;
previously handed-out references keep addressing the old array. -/
def resetErrorStats (s : ServerState) : ServerState :=
  { heap := s.heap ++ [[]]
    stats := { errors := 0, warnings := 0, detailsRef := s.heap.length } }

/-- The statistics-mutating task calls a client can issue, for stating
invariants over arbitrary operation sequences. -/
inductive ServerOp where
  | batch : List SIssue → Option String → Bool → ServerOp
  | logError : List String → String → ServerOp
  | reset : ServerOp

/-- Dispatch one task call. -/
def applyOp (s : ServerState) : ServerOp → ServerState
  | .batch issues testPath logToFile => processConsoleBatch s issues testPath logToFile
  | .logError message type => logConsoleError s message type
  | .reset => resetErrorStats s

/-- The `details` sequence currently observed through a stats object
(live or snapshot): the array its `detailsRef` addresses. -/
def observedDetails (s : ServerState) (r : StatsObj) : List SDetail :=
  readArr s.heap r.detailsRef

/-! ### Heap lemmas -/

theorem pushArr_length (heap : List (List SDetail)) (ref : Nat) (items : List SDetail) :
    (pushArr heap ref items).length = heap.length := by
  induction heap generalizing ref with
  | nil => rfl
  | cons a rest ih =>
    cases ref with
    | zero => rfl
    | succ n => simp [pushArr, ih]

theorem readArr_pushArr_self (heap : List (List SDetail)) (ref : Nat)
    (items : List SDetail) (h : ref < heap.length) :
    readArr (pushArr heap ref items) ref = readArr heap ref ++ items := by
  induction heap generalizing ref with
  | nil => simp at h
  | cons a rest ih =>
    cases ref with
    | zero => rfl
    | succ n =>
      simp only [pushArr, readArr]
      exact ih n (Nat.lt_of_succ_lt_succ h)

theorem readArr_append_left (heap heap2 : List (List SDetail)) (ref : Nat)
    (h : ref < heap.length) :
    readArr (heap ++ heap2) ref = readArr heap ref := by
  induction heap generalizing ref with
  | nil => simp at h
  | cons a rest ih =>
    cases ref with
    | zero => rfl
    | succ n =>
      simp only [List.cons_append, readArr]
      exact ih n (Nat.lt_of_succ_lt_succ h)

theorem readArr_append_length (heap : List (List SDetail)) (x : List SDetail) :
    readArr (heap ++ [x]) heap.length = x := by
  induction heap with
  | nil => rfl
  | cons a rest ih => simpa [readArr] using ih

/-- Well-formedness of the server state: the stats object addresses a
real array, and the counters total its length. -/
def statsWf (s : ServerState) : Prop :=
  s.stats.detailsRef < s.heap.length ∧
  s.stats.errors + s.stats.warnings = (readArr s.heap s.stats.detailsRef).length

theorem applyBatchIssue_detailsRef (s : ServerState) (i : SIssue) :
    (applyBatchIssue s i).stats.detailsRef = s.stats.detailsRef := by
  unfold applyBatchIssue
  split <;> rfl

theorem applyBatchIssue_heap (s : ServerState) (i : SIssue) :
    (applyBatchIssue s i).heap
      = pushArr s.heap s.stats.detailsRef [{ type := i.type, message := i.message }] := rfl

theorem applyBatchIssue_wf (s : ServerState) (i : SIssue) (h : statsWf s) :
    statsWf (applyBatchIssue s i) := by
  obtain ⟨h1, h2⟩ := h
  constructor
  · rw [applyBatchIssue_detailsRef, applyBatchIssue_heap, pushArr_length]
    exact h1
  · rw [applyBatchIssue_detailsRef, applyBatchIssue_heap,
      readArr_pushArr_self _ _ _ h1]
    unfold applyBatchIssue
    split <;> simp <;> omega

/-- The heap-side effect of the whole `issues.forEach` loop: the heap
keeps its shape, the stats keep addressing the same array, and that
array gains exactly one `{type, message}` record per issue, in order. -/
theorem foldl_applyBatchIssue_details :
    ∀ (issues : List SIssue) (s : ServerState),
      s.stats.detailsRef < s.heap.length →
      (issues.foldl applyBatchIssue s).heap.length = s.heap.length ∧
      (issues.foldl applyBatchIssue s).stats.detailsRef = s.stats.detailsRef ∧
      readArr (issues.foldl applyBatchIssue s).heap s.stats.detailsRef
        = readArr s.heap s.stats.detailsRef
            ++ issues.map (fun i => { type := i.type, message := i.message })
  | [], s, _ => ⟨rfl, rfl, by simp⟩
  | i :: rest, s, h => by
    have h' : (applyBatchIssue s i).stats.detailsRef < (applyBatchIssue s i).heap.length := by
      rw [applyBatchIssue_detailsRef, applyBatchIssue_heap, pushArr_length]
      exact h
    obtain ⟨ihLen, ihRef, ihRead⟩ := foldl_applyBatchIssue_details rest (applyBatchIssue s i) h'
    rw [applyBatchIssue_detailsRef] at ihRef ihRead
    refine ⟨?_, ?_, ?_⟩
    · simp only [List.foldl_cons]
      rw [ihLen, applyBatchIssue_heap, pushArr_length]
    · simpa using ihRef
    · simp only [List.foldl_cons]
      rw [ihRead, applyBatchIssue_heap, readArr_pushArr_self _ _ _ h]
      simp

/-- The counter-side effect of the `issues.forEach` loop: `errors` grows
by the number of `error`-typed issues, `warnings` by the number of all
the others. -/
theorem foldl_applyBatchIssue_counters :
    ∀ (issues : List SIssue) (s : ServerState),
      (issues.foldl applyBatchIssue s).stats.errors
          = s.stats.errors + (issues.filter (fun i => i.type == "error")).length ∧
      (issues.foldl applyBatchIssue s).stats.warnings
          = s.stats.warnings + (issues.filter (fun i => !(i.type == "error"))).length
  | [], s => by simp
  | i :: rest, s => by
    obtain ⟨ihE, ihW⟩ := foldl_applyBatchIssue_counters rest (applyBatchIssue s i)
    simp only [List.foldl_cons, List.filter_cons]
    constructor
    · rw [ihE]
      by_cases hty : i.type = "error" <;> simp [applyBatchIssue, hty] <;> omega
    · rw [ihW]
      by_cases hty : i.type = "error" <;> simp [applyBatchIssue, hty] <;> omega

theorem foldl_applyBatchIssue_wf :
    ∀ (issues : List SIssue) (s : ServerState), statsWf s →
      statsWf (issues.foldl applyBatchIssue s)
  | [], _, h => h
  | i :: rest, s, h => foldl_applyBatchIssue_wf rest _ (applyBatchIssue_wf s i h)

theorem logConsoleError_wf (s : ServerState) (message : List String) (type : String)
    (h : statsWf s) : statsWf (logConsoleError s message type) := by
  obtain ⟨h1, h2⟩ := h
  constructor
  · unfold logConsoleError
    by_cases hty : type = "error" <;> simp [hty, pushArr_length, h1]
  · unfold logConsoleError
    by_cases hty : type = "error" <;>
      simp [hty, readArr_pushArr_self _ _ _ h1] <;> omega

theorem resetErrorStats_wf (s : ServerState) : statsWf (resetErrorStats s) := by
  constructor
  · simp [resetErrorStats]
  · simp [resetErrorStats, readArr_append_length]

theorem applyOp_wf (s : ServerState) (op : ServerOp) (h : statsWf s) :
    statsWf (applyOp s op) := by
  cases op with
  | batch issues testPath logToFile =>
    show statsWf (processConsoleBatch s issues testPath logToFile)
    unfold processConsoleBatch
    split
    · exact h
    · exact foldl_applyBatchIssue_wf issues s h
  | logError message type => exact logConsoleError_wf s message type h
  | reset => exact resetErrorStats_wf s

theorem foldl_applyOp_wf :
    ∀ (ops : List ServerOp) (s : ServerState), statsWf s →
      statsWf (ops.foldl applyOp s)
  | [], _, h => h
  | op :: rest, s, h => foldl_applyOp_wf rest _ (applyOp_wf s op h)

theorem initServerState_wf : statsWf initServerState := ⟨Nat.one_pos, rfl⟩

/-! ### Claim theorems — aggregator -/

/-- C5 (counterexample): `getErrorStats` is only a SHALLOW copy.  Take the
snapshot of the fresh server state, then process a batch with one error:
the `details` sequence observed through the snapshot has changed (the
snapshot's `details` aliases the live array), refuting the claim that a
subsequent `processConsoleBatch` leaves the snapshot's details sequence
unchanged. -/
theorem getErrorStats_snapshot_counterexample :
    observedDetails
        (processConsoleBatch initServerState
          [{ type := "error", message := "boom" }] none false)
        (getErrorStats initServerState)
      ≠ observedDetails initServerState (getErrorStats initServerState) := by
  decide

/-- C5 (amended): `getErrorStats` returns a shallow snapshot `r`.  Its
`errors`/`warnings` counters are value copies of the statistics at
snapshot time, and `resetErrorStats` (which rebinds `errorStats` to a
fresh object with a fresh array) leaves everything observed through `r`
unchanged; but `r.details` aliases the live array, so a subsequent
`processConsoleBatch` (likewise `logConsoleError`) appends its records
to the sequence observed through `r`. -/
theorem getErrorStats_shallow_snapshot (s : ServerState) (issues : List SIssue)
    (testPath : Option String) (logToFile : Bool)
    (message : List String) (type : String)
    (h : s.stats.detailsRef < s.heap.length) :
    (getErrorStats s).errors = s.stats.errors ∧
    (getErrorStats s).warnings = s.stats.warnings ∧
    observedDetails (resetErrorStats s) (getErrorStats s)
        = observedDetails s (getErrorStats s) ∧
    observedDetails (processConsoleBatch s issues testPath logToFile) (getErrorStats s)
        = observedDetails s (getErrorStats s)
            ++ issues.map (fun i => { type := i.type, message := i.message }) ∧
    observedDetails (logConsoleError s message type) (getErrorStats s)
        = observedDetails s (getErrorStats s)
            ++ [{ type := type, message := String.intercalate " " message }] := by
  refine ⟨rfl, rfl, ?_, ?_, ?_⟩
  · unfold observedDetails resetErrorStats getErrorStats
    exact readArr_append_left _ _ _ h
  · unfold observedDetails processConsoleBatch getErrorStats
    split
    · rename_i hempty
      rw [List.isEmpty_iff] at hempty
      simp [hempty]
    · exact (foldl_applyBatchIssue_details issues s h).2.2
  · unfold observedDetails logConsoleError getErrorStats
    by_cases hty : type = "error" <;>
      simp [hty, readArr_pushArr_self _ _ _ h]

/-- C5 witness: the amended theorem applied at the fresh server state with
a one-error batch and a one-warning legacy call. -/
theorem getErrorStats_shallow_snapshot_witness :
    initServerState.stats.detailsRef < initServerState.heap.length ∧
    ((getErrorStats initServerState).errors = initServerState.stats.errors ∧
     (getErrorStats initServerState).warnings = initServerState.stats.warnings ∧
     observedDetails (resetErrorStats initServerState) (getErrorStats initServerState)
         = observedDetails initServerState (getErrorStats initServerState) ∧
     observedDetails
         (processConsoleBatch initServerState
           [{ type := "error", message := "boom" }] none false)
         (getErrorStats initServerState)
         = observedDetails initServerState (getErrorStats initServerState)
             ++ [({ type := "error", message := "boom" } : SDetail)] ∧
     observedDetails
         (logConsoleError initServerState ["unexpected", "warning"] "warn")
         (getErrorStats initServerState)
         = observedDetails initServerState (getErrorStats initServerState)
             ++ [{ type := "warn", message := String.intercalate " " ["unexpected", "warning"] }]) :=
  ⟨Nat.one_pos,
   getErrorStats_shallow_snapshot initServerState
     [{ type := "error", message := "boom" }] none false
     ["unexpected", "warning"] "warn" Nat.one_pos⟩

/-- C6 (counterexample): an issue of type `info` is NOT left uncounted —
`processConsoleBatch` bumps the `warnings` counter for every non-`error`
type (`issue.type === 'error' ? 'errors' : 'warnings'`), so a single
`info` issue yields `warnings = 1`, refuting the claim that it
increments neither counter. -/
theorem processConsoleBatch_info_counterexample :
    (processConsoleBatch initServerState
        [{ type := "info", message := "note" }] none false).stats.warnings = 1 ∧
    (processConsoleBatch initServerState
        [{ type := "info", message := "note" }] none false).stats.errors = 0 := by
  decide

/-- C6 (amended): `processConsoleBatch` increments the `errors` counter
once per issue of type `error` and the `warnings` counter once per issue
of EVERY other type (`warn`, `info`, …); either way every issue's
`{type, message}` record is appended to the `details` sequence, in
order. -/
theorem processConsoleBatch_counters (s : ServerState) (issues : List SIssue)
    (testPath : Option String) (logToFile : Bool)
    (h : s.stats.detailsRef < s.heap.length) :
    (processConsoleBatch s issues testPath logToFile).stats.errors
        = s.stats.errors + (issues.filter (fun i => i.type == "error")).length ∧
    (processConsoleBatch s issues testPath logToFile).stats.warnings
        = s.stats.warnings + (issues.filter (fun i => !(i.type == "error"))).length ∧
    observedDetails (processConsoleBatch s issues testPath logToFile)
        (processConsoleBatch s issues testPath logToFile).stats
      = observedDetails s s.stats
          ++ issues.map (fun i => { type := i.type, message := i.message }) := by
  unfold processConsoleBatch
  split
  · rename_i hempty
    rw [List.isEmpty_iff] at hempty
    simp [hempty]
  · obtain ⟨hE, hW⟩ := foldl_applyBatchIssue_counters issues s
    obtain ⟨_, hRef, hRead⟩ := foldl_applyBatchIssue_details issues s h
    refine ⟨hE, hW, ?_⟩
    unfold observedDetails
    rw [hRef, hRead]

/-- C6 witness: the amended theorem at the fresh server state with a
two-issue batch (`error`, then `info`): `errors` gains 1, `warnings`
gains 1 (the `info` issue), and both records land in `details`. -/
theorem processConsoleBatch_counters_witness :
    initServerState.stats.detailsRef < initServerState.heap.length ∧
    ((processConsoleBatch initServerState
        [{ type := "error", message := "boom" }, { type := "info", message := "note" }]
        none false).stats.errors
        = initServerState.stats.errors
            + (([{ type := "error", message := "boom" },
                 { type := "info", message := "note" }] : List SIssue).filter
                (fun i => i.type == "error")).length ∧
     (processConsoleBatch initServerState
        [{ type := "error", message := "boom" }, { type := "info", message := "note" }]
        none false).stats.warnings
        = initServerState.stats.warnings
            + (([{ type := "error", message := "boom" },
                 { type := "info", message := "note" }] : List SIssue).filter
                (fun i => !(i.type == "error"))).length ∧
     observedDetails
        (processConsoleBatch initServerState
          [{ type := "error", message := "boom" }, { type := "info", message := "note" }]
          none false)
        (processConsoleBatch initServerState
          [{ type := "error", message := "boom" }, { type := "info", message := "note" }]
          none false).stats
        = observedDetails initServerState initServerState.stats
            ++ ([{ type := "error", message := "boom" },
                 { type := "info", message := "note" }] : List SIssue).map
                (fun i => { type := i.type, message := i.message })) :=
  ⟨Nat.one_pos,
   processConsoleBatch_counters initServerState
     [{ type := "error", message := "boom" }, { type := "info", message := "note" }]
     none false Nat.one_pos⟩

/-- C10: starting from the reset state `{errors: 0, warnings: 0,
details: []}`, after any sequence of `processConsoleBatch`,
`logConsoleError` and `resetErrorStats` task calls, the statistics
satisfy `errors + warnings = details.length`: every counter bump is
paired with exactly one `details.push`. -/
theorem errorStats_counters_match_details (ops : List ServerOp) :
    (ops.foldl applyOp initServerState).stats.errors
        + (ops.foldl applyOp initServerState).stats.warnings
      = (observedDetails (ops.foldl applyOp initServerState)
          (ops.foldl applyOp initServerState).stats).length :=
  (foldl_applyOp_wf ops initServerState initServerState_wf).2

/-! ### Claim theorems — monitor -/

/-- C7: for every global custom configuration and every suite- and
test-level override, the merged whitelist is the concatenation
global ++ suite ++ test, in that order — accumulation across all
levels, not last-writer-wins — so every entry present at any level
appears in the merged whitelist. -/
theorem merged_whitelist_is_concat (custom : PartialConfig)
    (testCfg describeCfg : Option PartialConfig) :
    (getMergedConfig (mkGlobalConfig custom) testCfg describeCfg).whitelist
      = (mkGlobalConfig custom).whitelist
          ++ ((describeCfg.getD emptyPartial).whitelist.getD [])
          ++ ((testCfg.getD emptyPartial).whitelist.getD []) := rfl

/-- C9: on an uncaught window `error` event, the installed handler
appends to the accumulated issue sequence exactly one issue of type
`error`, whose message is the single formatted string
`Uncaught Error: <description> at <source>:<line>` and whose
`rawMessage` is the original unformatted event description; it issues
no cross-process report call (the reports stream is untouched). -/
theorem window_error_handler_appends_one (st : MonitorState) (e : ErrorEvent) :
    (windowErrorHandler st e).allIssues
        = st.allIssues
            ++ [{ type := .error
                  message := [.str ("Uncaught Error: " ++ e.message ++ " at "
                                ++ e.filename ++ ":" ++ toString e.lineno)]
                  rawMessage := e.message }] ∧
    (windowErrorHandler st e).reports = st.reports :=
  ⟨rfl, rfl⟩

/-- C2 (counterexample): when the test body throws, the spy-drain
collection step does NOT run — the drain lives in a fulfillment-only
`.then` handler, which a body rejection skips — even though a spy holds
a recorded `console.error` call.  This refutes the claim that collection
runs on both exit paths of the body. -/
theorem collection_skipped_on_body_throw_counterexample :
    (runWrappedTest (mkGlobalConfig emptyPartial) none none "spec.cy.js"
        { thrown := some "assertion failed"
          errorEvents := []
          spyCalls := [("error", [[.str "oops"]])] }).collected = false := rfl

/-- C2 (amended): the spy-drain collection step runs exactly when the
test body completes successfully; when the body has thrown, the
rejection bypasses the fulfillment-only `.then` handler holding the
drain, so spy-recorded issues of a failing test are lost. -/
theorem collection_runs_iff_body_succeeds (config : Config)
    (testCfg describeCfg : Option PartialConfig) (testPath : String) (body : BodyRun) :
    (runWrappedTest config testCfg describeCfg testPath body).collected
      = body.thrown.isNone := by
  cases hb : body.thrown with
  | some e => simp [runWrappedTest, hb]
  | none =>
    simp only [runWrappedTest, hb, Option.isNone_none]
    split <;> rfl

/-- C3 (counterexample): on the console-issue-failure exit path the spies
are NOT torn down before the wrapped test settles: the final
`cleanupSpies()` lives in a fulfillment-only `.then` handler that the
`ConsoleErrors` throw skips.  Here the body succeeds, one unwhitelisted
`console.error` call was recorded, and `failOnSpy` holds its default
`true`. -/
theorem cleanup_skipped_on_issue_failure_counterexample :
    (runWrappedTest (mkGlobalConfig emptyPartial) none none "spec.cy.js"
        { thrown := none
          errorEvents := []
          spyCalls := [("error", [[.str "boom"]])] }).cleanedUp = false := rfl

/-- C3 (amended): the end-of-test spy teardown runs exactly when the
wrapped test settles successfully (body succeeded and no console-issue
failure was raised); on a body failure or a console-issue failure it is
skipped, the spies surviving until the next wrapped test's opening
`cleanupSpies()`. -/
theorem cleanup_runs_iff_test_passes (config : Config)
    (testCfg describeCfg : Option PartialConfig) (testPath : String) (body : BodyRun) :
    (runWrappedTest config testCfg describeCfg testPath body).cleanedUp
      = (runWrappedTest config testCfg describeCfg testPath body).outcome.isNone := by
  cases hb : body.thrown with
  | some e => simp [runWrappedTest, hb]
  | none =>
    simp only [runWrappedTest, hb]
    split <;> rfl

/-- C8: whenever the filtered issue list is empty, the wrapped test's
outcome equals the body's own outcome — no `ConsoleErrors` failure is
raised and no `processConsoleBatch` report is sent. -/
theorem empty_filtered_refines_body (config : Config)
    (testCfg describeCfg : Option PartialConfig) (testPath : String) (body : BodyRun)
    (h : computeFilteredIssues (getMergedConfig config testCfg describeCfg)
          (body.errorEvents.map uncaughtErrorIssue
            ++ collectAll config.methodsToTrack body.spyCalls) = []) :
    (runWrappedTest config testCfg describeCfg testPath body).outcome
        = body.thrown.map TestError.body ∧
    (runWrappedTest config testCfg describeCfg testPath body).reports = [] := by
  cases hb : body.thrown with
  | some e => simp [runWrappedTest, hb]
  | none =>
    simp only [runWrappedTest, hb, h, Option.map_none]
    simp [processIssues]

/-- C8 witness: a run with no spy calls and no uncaught events has an
empty filtered list; its wrapped outcome is the body's success and no
batch is sent. -/
theorem empty_filtered_refines_body_witness :
    computeFilteredIssues (getMergedConfig (mkGlobalConfig emptyPartial) none none)
        ((List.map uncaughtErrorIssue [])
          ++ collectAll (mkGlobalConfig emptyPartial).methodsToTrack []) = [] ∧
    ((runWrappedTest (mkGlobalConfig emptyPartial) none none "spec.cy.js"
        { thrown := none, errorEvents := [], spyCalls := [] }).outcome = none ∧
     (runWrappedTest (mkGlobalConfig emptyPartial) none none "spec.cy.js"
        { thrown := none, errorEvents := [], spyCalls := [] }).reports = []) :=
  ⟨rfl,
   empty_filtered_refines_body (mkGlobalConfig emptyPartial) none none "spec.cy.js"
     { thrown := none, errorEvents := [], spyCalls := [] } rfl⟩

/-- C4 (counterexample): the batched report's `logToFile` flag does NOT
equal the merged configuration's `logToFile`.  With a test-level
override `logToFile: false` over the default-true global configuration,
the merged value is `false`, yet the single report sent carries `true`:
`processIssues` reads the flag from the GLOBAL `config`, ignoring suite-
and test-level overrides. -/
theorem report_flag_ignores_override_counterexample :
    (getMergedConfig (mkGlobalConfig emptyPartial)
        (some { logToFile := some false }) none).logToFile = false ∧
    (runWrappedTest (mkGlobalConfig emptyPartial)
        (some { logToFile := some false }) none "spec.cy.js"
        { thrown := none
          errorEvents := []
          spyCalls := [("error", [[.str "boom"]])] }).reports.map Batch.logToFile
      = [true] := ⟨rfl, rfl⟩

/-- C4 (amended): for every wrapped test whose body succeeds and whose
filtered issue list is non-empty, exactly one `processConsoleBatch`
report is sent, carrying the filtered issues, the spec path, and a
`logToFile` flag equal to the GLOBAL configuration's `logToFile` —
suite- and test-level `logToFile` overrides never reach the report. -/
theorem one_report_with_global_flag (config : Config)
    (testCfg describeCfg : Option PartialConfig) (testPath : String) (body : BodyRun)
    (hb : body.thrown = none)
    (hf : computeFilteredIssues (getMergedConfig config testCfg describeCfg)
            (body.errorEvents.map uncaughtErrorIssue
              ++ collectAll config.methodsToTrack body.spyCalls) ≠ []) :
    (runWrappedTest config testCfg describeCfg testPath body).reports
      = [{ issues :=
             (computeFilteredIssues (getMergedConfig config testCfg describeCfg)
               (body.errorEvents.map uncaughtErrorIssue
                 ++ collectAll config.methodsToTrack body.spyCalls)).map toServerIssue
           testPath := testPath
           logToFile := config.logToFile }] := by
  simp only [runWrappedTest, hb]
  split <;> simp [processIssues, List.isEmpty_iff, hf]

/-- C4 witness: the amended theorem applied to a succeeding body with one
recorded `console.error("boom")` call under the default configuration. -/
theorem one_report_with_global_flag_witness :
    (({ thrown := none, errorEvents := [],
        spyCalls := [("error", [[.str "boom"]])] } : BodyRun).thrown = none) ∧
    computeFilteredIssues (getMergedConfig (mkGlobalConfig emptyPartial) none none)
        ((List.map uncaughtErrorIssue [])
          ++ collectAll (mkGlobalConfig emptyPartial).methodsToTrack
               [("error", [[.str "boom"]])]) ≠ [] ∧
    (runWrappedTest (mkGlobalConfig emptyPartial) none none "spec.cy.js"
        { thrown := none, errorEvents := [],
          spyCalls := [("error", [[.str "boom"]])] }).reports
      = [{ issues :=
             (computeFilteredIssues (getMergedConfig (mkGlobalConfig emptyPartial) none none)
               ((List.map uncaughtErrorIssue [])
                 ++ collectAll (mkGlobalConfig emptyPartial).methodsToTrack
                      [("error", [[.str "boom"]])])).map toServerIssue
           testPath := "spec.cy.js"
           logToFile := (mkGlobalConfig emptyPartial).logToFile }] :=
  ⟨rfl, by decide,
   one_report_with_global_flag (mkGlobalConfig emptyPartial) none none "spec.cy.js"
     { thrown := none, errorEvents := [], spyCalls := [("error", [[.str "boom"]])] }
     rfl (by decide)⟩

/-- C1 (counterexample): nested suites, the outer registered with
`{ consoleDaemon: { failOnSpy: false } }`, the inner with no options
object, the test with no override, default global configuration.  The
test captures the INNER suite's (empty) options object as its
`describeConfigForTest`, so the merged `failOnSpy` is `true` — the outer
suite's `false` does not flow through. -/
theorem outer_suite_override_shadowed_counterexample :
    (registerItems none
        [.suite (some { failOnSpy := some false }) [.suite none [.test none]]]).map
      (fun rt => (getMergedConfig (mkGlobalConfig emptyPartial)
                    rt.testCfg rt.describeCfg).failOnSpy)
      = [true] ∧ ¬ ([true] = [false]) := by
  constructor
  · simp [registerItems, registerItem, getMergedConfig, applySpread,
      mkGlobalConfig, defaultConfig, emptyPartial]
  · simp

/-- C1 (amended): for a test registered in the inner of two nested
suites, only the innermost enclosing suite's override participates in
the merge: when neither the inner suite nor the test overrides
`failOnSpy`, the merged `failOnSpy` equals the GLOBAL value
(custom-or-default), whatever the outer suite set — the outer suite's
`failOnSpy: false` is shadowed by the inner suite's registration. -/
theorem innermost_suite_config_wins (custom outerCfg innerCfg testOv : PartialConfig)
    (hI : innerCfg.failOnSpy = none) (hT : testOv.failOnSpy = none) :
    (registerItems none
        [.suite (some outerCfg) [.suite (some innerCfg) [.test (some testOv)]]]).map
      (fun rt => (getMergedConfig (mkGlobalConfig custom)
                    rt.testCfg rt.describeCfg).failOnSpy)
      = [custom.failOnSpy.getD defaultConfig.failOnSpy] := by
  simp [registerItems, registerItem, getMergedConfig, applySpread,
    mkGlobalConfig, emptyPartial, hI, hT]

/-- C1 witness: the amended theorem at the counterexample's inputs —
outer suite sets `failOnSpy: false`, inner suite and test set nothing,
empty custom configuration — resolving the merged `failOnSpy` to the
library default `true`. -/
theorem innermost_suite_config_wins_witness :
    (emptyPartial.failOnSpy = none) ∧
    (registerItems none
        [.suite (some { failOnSpy := some false })
            [.suite (some emptyPartial) [.test (some emptyPartial)]]]).map
      (fun rt => (getMergedConfig (mkGlobalConfig emptyPartial)
                    rt.testCfg rt.describeCfg).failOnSpy)
      = [emptyPartial.failOnSpy.getD defaultConfig.failOnSpy] :=
  ⟨rfl,
   innermost_suite_config_wins emptyPartial { failOnSpy := some false }
     emptyPartial emptyPartial rfl rfl⟩

end ConsoleSpy
